import Mathlib

/-!
Shallow embedding of the WattBox Home Assistant integration
(`custom_components/wattbox`): the HTTP status parser and command layer of
`pywattbox/http_wattbox.py`, the compatibility facade `api_wrapper.py`
(`PyWattBoxWrapper`), and the switch-entity cooldown discipline of
`switch.py`.  Network transport is abstracted: a fetched XML document is a
`Payload` of optional field texts, and an issued `GET /control.cgi`
request is a `Request` value; everything else follows the Python sources
statement by statement.
-/

namespace Wattbox

/-- Python truthiness of an `Optional[bool]` attribute (`None` is falsy). -/
def truthy : Option Bool → Bool
  | some b => b
  | none => false

/-- Splitting accumulator: Python `str.split(sep)` over the character list. -/
def splitAux (sep : Char) : List Char → List Char → List (List Char)
  | [], acc => [acc.reverse]
  | c :: rest, acc =>
      if c = sep then acc.reverse :: splitAux sep rest []
      else splitAux sep rest (c :: acc)

/-- Python `s.split(sep)` for a one-character separator; like Python, the
split of the empty string is `[""]`. -/
def pySplit (s : String) (sep : Char) : List String :=
  (splitAux sep s.data []).map (fun l => String.mk l)

/-- ASCII whitespace, as stripped by Python `str.strip()`. -/
def isWS (c : Char) : Bool :=
  c = ' ' || c = '\t' || c = '\n' || c = '\r'

/-- Python `s.strip()`. -/
def pyStrip (s : String) : String :=
  String.mk ((s.data.dropWhile isWS).reverse.dropWhile isWS).reverse

/-- Value of a digit string (most significant first); `none` when any
character is not a decimal digit or the remainder is malformed. -/
def digitsVal : List Char → Option Nat
  | [] => some 0
  | c :: rest =>
      if c.isDigit then
        (digitsVal rest).map (fun n => (c.toNat - '0'.toNat) * 10 ^ rest.length + n)
      else none

/-- `digitsVal` over a possibly signed, non-empty digit string. -/
def pyIntChars : List Char → Option Int
  | [] => none
  | '-' :: rest =>
      if rest = [] then none else (digitsVal rest).map (fun n => -(n : Int))
  | '+' :: rest =>
      if rest = [] then none else (digitsVal rest).map (fun n => (n : Int))
  | l => (digitsVal l).map (fun n => (n : Int))

/-- Python `int(s)` on a decimal string: surrounding whitespace is ignored
and one leading sign is allowed; `none` models a raised `ValueError`. -/
def pyInt (s : String) : Option Int :=
  pyIntChars (pyStrip s).data

/-- Python `x or d` for an optional string (`None` and `""` are falsy). -/
def pyOrStr (x : Option String) (d : String) : String :=
  match x with
  | some s => if s == "" then d else s
  | none => d

/-- Python `str()` of an `Optional[bool]`. -/
def pyStr : Option Bool → String
  | none => "None"
  | some true => "True"
  | some false => "False"

/-- A field text equal to `"1"`, the protocol encoding of a set flag. -/
def isOne (t : String) : Bool := t == "1"

/-- Modelled from the spec: the command enumeration of the missing
`pywattbox/base.py` module.  Section 6 of the spec fixes the wire codes
(0=OFF, 1=ON, 3=RESET, 4=auto-reboot-enable, 5=auto-reboot-disable); the
enum carries its integer code like a Python `IntEnum`, which is also how
an outlet's boolean status compares against a command in
`send_master_command` ("status differs from the target", section 4.2). -/
inductive Commands where
  | ON
  | OFF
  | RESET
  | AUTO_REBOOT_ON
  | AUTO_REBOOT_OFF
deriving DecidableEq

/-- The integer wire code of a command (`command.value`). -/
def Commands.val : Commands → Int
  | .ON => 1
  | .OFF => 0
  | .RESET => 3
  | .AUTO_REBOOT_ON => 4
  | .AUTO_REBOOT_OFF => 5

/-- One issued `GET /control.cgi?outlet=<int>&command=<int>` request. -/
structure Request where
  outlet : Int
  command : Int
deriving DecidableEq

/-- The Python exceptions this embedding distinguishes. -/
inductive PyErr where
  | valueError
  | keyError
deriving DecidableEq

/-- Modelled from the spec: the per-outlet record of the missing
`pywattbox/base.py` (spec section 3: 1-based index, name, on/off status,
master-controlled flag `method`, optional per-outlet power values); a
fresh `Outlet(i, wattbox)` starts with every field besides the index
unset. -/
structure Outlet where
  index : Nat
  name : Option String := none
  status : Option Bool := none
  method : Option Bool := none
  power_value : Option ℚ := none
  current_value : Option ℚ := none
  voltage_value : Option ℚ := none
deriving DecidableEq

/-- The synthetic master outlet (`MasterSwitch(wattbox)`, index 0); only
its derived status matters to this embedding. -/
structure MasterOutlet where
  status : Option Bool := none
deriving DecidableEq

/-- The in-memory snapshot held by `HttpWattBox` (attributes inherited
from the missing `pywattbox/base.py` start unset, per spec sections 3 and
4.1: absent means never reported, distinct from zero/false). -/
structure ClientState where
  hardware_version : Option String := none
  firmware_version : Option String := none
  has_ups : Option Bool := none
  hostname : Option String := none
  serial_number : Option String := none
  number_outlets : Int := 0
  outlets : List Outlet := []
  master_outlet : Option MasterOutlet := none
  audible_alarm : Option Bool := none
  auto_reboot : Option Bool := none
  cloud_status : Option Bool := none
  mute : Option Bool := none
  power_lost : Option Bool := none
  safe_voltage_status : Option Bool := none
  power_value : Option Int := none
  current_value : Option ℚ := none
  voltage_value : Option ℚ := none
  battery_charge : Option Int := none
  battery_health : Option Bool := none
  battery_load : Option Int := none
  battery_test : Option Bool := none
  est_run_time : Option Int := none
deriving DecidableEq

/-- The state of a freshly constructed client, before any poll. -/
def initClient : ClientState := {}

/-- The fields of a `wattbox_info.xml` status document: each entry is the
text of the first element of that name when present (`soup.<field>.text`
in the BeautifulSoup terms of `parse_initial`/`parse_update`). -/
structure Payload where
  hardware_version : Option String := none
  hasUPS : Option String := none
  host_name : Option String := none
  serial_number : Option String := none
  audible_alarm : Option String := none
  auto_reboot : Option String := none
  cloud_status : Option String := none
  mute : Option String := none
  power_lost : Option String := none
  safe_voltage_status : Option String := none
  power_value : Option String := none
  current_value : Option String := none
  voltage_value : Option String := none
  battery_charge : Option String := none
  battery_health : Option String := none
  battery_load : Option String := none
  battery_test : Option String := none
  est_run_time : Option String := none
  outlet_method : Option String := none
  outlet_mode : Option String := none
  outlet_name : Option String := none
  outlet_status : Option String := none
deriving DecidableEq

/-- `if soup.f is not None: self.a = g(soup.f.text)` — update an attribute
from an optional payload field, keeping the old value when the field is
absent from the document. -/
def updField (old : Option α) (fld : Option String) (g : String → α) : Option α :=
  match fld with
  | some t => some (g t)
  | none => old

/-- The part of a hardware-model string after the last dash
(`self.hardware_version.split("-")[-1]`). -/
def lastDashPart (s : String) : String :=
  (pySplit s '-').getLastD ""

/-- `HttpWattBox.parse_initial`: records the identity fields, resolves the
outlet count (comma entries of a present non-blank `outlet_status`;
otherwise, when the field is absent, the trailing numeric suffix of the
hardware model; otherwise 0), then recreates the outlet dictionary with
keys `1..N` and a fresh master pseudo-outlet. -/
def parse_initial (p : Payload) (s : ClientState) : ClientState :=
  let hardware_version := updField s.hardware_version p.hardware_version id
  let has_ups := updField s.has_ups p.hasUPS isOne
  let hostname := updField s.hostname p.host_name id
  let serial_number := updField s.serial_number p.serial_number id
  let number_outlets : Int :=
    match p.outlet_status with
    | some txt =>
        if txt != "" && pyStrip txt != "" then ((pySplit txt ',').length : Int)
        else 0
    | none =>
        match hardware_version with
        | some hv =>
            match pyInt (lastDashPart hv) with
            | some n => n
            | none => 0
        | none => 0
  { s with
    hardware_version := hardware_version
    has_ups := has_ups
    hostname := hostname
    serial_number := serial_number
    number_outlets := number_outlets
    outlets := (List.range number_outlets.toNat).map (fun k => { index := k + 1 })
    master_outlet := some {} }

/-- `int(field.text)` for an optional field: an absent field stays absent,
a present field that does not parse raises `ValueError`. -/
def optIntE (fld : Option String) : Except PyErr (Option Int) :=
  match fld with
  | none => .ok none
  | some t =>
      match pyInt t with
      | some n => .ok (some n)
      | none => .error .valueError

/-- `for i, s in enumerate(text.split(","), start=1): if i in self.outlets:
<set a field of outlets[i] from s>` — positional decode of a comma-joined
per-outlet field against the outlet dictionary. -/
def applyOutletField (entries : List String) (setF : Outlet → String → Outlet)
    (outlets : List Outlet) : List Outlet :=
  outlets.map fun o =>
    if 1 ≤ o.index ∧ o.index ≤ entries.length then
      setF o (entries.getD (o.index - 1) "")
    else o

/-- `applyOutletField` when the payload field may be absent. -/
def optApplyOutletField (fld : Option String) (setF : Outlet → String → Outlet)
    (outlets : List Outlet) : List Outlet :=
  match fld with
  | some txt => applyOutletField (pySplit txt ',') setF outlets
  | none => outlets

/-- `all(outlet.status for outlet in self.outlets.values() if
outlet.method)` — Python `all` over optional booleans, with `None` falsy
and the empty collection vacuously `True`. -/
def masterStatusCalc (outlets : List Outlet) : Bool :=
  (outlets.filter (fun o => truthy o.method)).all (fun o => truthy o.status)

/-- The protocol transmits current and voltage in tenths: decode divides
the raw integer by 10. -/
def tenths (n : Int) : ℚ := (n : ℚ) / 10

/-- Store a decoded optional integer field (`none` leaves the attribute). -/
def setFromInt (old : Option Int) (v : Option Int) : Option Int :=
  match v with
  | some n => some n
  | none => old

/-- Store a decoded optional tenths field. -/
def setFromTenths (old : Option ℚ) (v : Option Int) : Option ℚ :=
  match v with
  | some n => some (tenths n)
  | none => old

/-- The state transformation of `HttpWattBox.parse_update` once the
integer fields have been read: `pv`, `cv`, `vv` are the decoded device
power/current/voltage and `bc`, `bl`, `ert` the battery integers (already
`none` when the `has_ups` guard is off).  Field order follows the source:
status booleans, power values, battery values, then the per-outlet
method/name/status decode and finally the derived master status. -/
def parse_update_core (p : Payload) (s : ClientState)
    (pv cv vv bc bl ert : Option Int) : ClientState :=
  let methodField : Option String :=
    match p.outlet_method with
    | some t => some t
    | none => p.outlet_mode
  let outlets :=
    optApplyOutletField p.outlet_status (fun o t => { o with status := some (isOne t) })
      (optApplyOutletField p.outlet_name (fun o t => { o with name := some t })
        (optApplyOutletField methodField (fun o t => { o with method := some (isOne t) })
          s.outlets))
  { s with
    audible_alarm := updField s.audible_alarm p.audible_alarm isOne
    auto_reboot := updField s.auto_reboot p.auto_reboot isOne
    cloud_status := updField s.cloud_status p.cloud_status isOne
    mute := updField s.mute p.mute isOne
    power_lost := updField s.power_lost p.power_lost isOne
    safe_voltage_status := updField s.safe_voltage_status p.safe_voltage_status isOne
    power_value := setFromInt s.power_value pv
    current_value := setFromTenths s.current_value cv
    voltage_value := setFromTenths s.voltage_value vv
    battery_charge := setFromInt s.battery_charge bc
    battery_health :=
      if truthy s.has_ups then updField s.battery_health p.battery_health isOne
      else s.battery_health
    battery_load := setFromInt s.battery_load bl
    battery_test :=
      if truthy s.has_ups then updField s.battery_test p.battery_test isOne
      else s.battery_test
    est_run_time := setFromInt s.est_run_time ert
    outlets := outlets
    master_outlet :=
      match s.master_outlet with
      | some _ => some { status := some (masterStatusCalc outlets) }
      | none => none }

/-- `HttpWattBox.parse_update`; `.error` models an uncaught Python
exception (`ValueError` from `int(...)` on a malformed numeric field, in
the source's evaluation order).  Battery integers are only read when the
UPS flag established by the initial payload is truthy. -/
def parse_update (p : Payload) (s : ClientState) : Except PyErr ClientState :=
  match optIntE p.power_value, optIntE p.current_value, optIntE p.voltage_value,
      (if truthy s.has_ups then optIntE p.battery_charge else .ok none),
      (if truthy s.has_ups then optIntE p.battery_load else .ok none),
      (if truthy s.has_ups then optIntE p.est_run_time else .ok none) with
  | .ok pv, .ok cv, .ok vv, .ok bc, .ok bl, .ok ert =>
      .ok (parse_update_core p s pv cv vv bc bl ert)
  | .error e, _, _, _, _, _ => .error e
  | _, .error e, _, _, _, _ => .error e
  | _, _, .error e, _, _, _ => .error e
  | _, _, _, .error e, _, _ => .error e
  | _, _, _, _, .error e, _ => .error e
  | _, _, _, _, _, .error e => .error e

/-- Whether a parse step completed without raising. -/
def exceptOk : Except PyErr ClientState → Bool
  | .ok _ => true
  | .error _ => false

/-- The state after a parse step, or the fallback when it raised. -/
def resState (e : Except PyErr ClientState) (fallback : ClientState) : ClientState :=
  match e with
  | .ok s => s
  | .error _ => fallback

/-- `HttpWattBox.get_initial`: fetches one document and runs
`parse_initial` then `parse_update` on the same response. -/
def get_initial_state (p : Payload) (s : ClientState) : Except PyErr ClientState :=
  parse_update p (parse_initial p s)

/-- `HttpWattBox.send_command`: one control request (the response is not
parsed, so the snapshot is untouched). -/
def send_command (outlet : Int) (command : Commands) : List Request :=
  [{ outlet := outlet, command := command.val }]

/-- `HttpWattBox.check_master_command`: raises `ValueError` unless the
command is `Commands.ON` or `Commands.OFF`. -/
def check_master_command (command : Commands) : Except PyErr Unit :=
  if command = .ON ∨ command = .OFF then .ok () else .error .valueError

/-- Python `outlet.status != command` with `status : Optional[bool]` and
an integer-valued command: `None` compares unequal to any command, a
boolean compares by its numeric value (`True == 1`, `False == 0`). -/
def statusNeCommand (status : Option Bool) (command : Commands) : Bool :=
  match status with
  | none => true
  | some b => (if b then (1 : Int) else 0) != command.val

/-- `HttpWattBox.send_master_command` (the async variant is identical):
validate the command, then walk the outlet dictionary issuing one
`send_command` per outlet whose `method` flag is truthy and whose status
compares unequal to the command.  Returned alongside the issued requests,
the snapshot is unchanged. -/
def send_master_command (command : Commands) (s : ClientState) :
    ClientState × Except PyErr (List Request) :=
  match check_master_command command with
  | .error e => (s, .error e)
  | .ok _ =>
      (s, .ok (s.outlets.flatMap (fun o =>
        if truthy o.method && statusNeCommand o.status command then
          send_command (o.index : Int) command
        else [])))

/-- The requests a master-command invocation issued (none when the
validation raised, since the check precedes the loop). -/
def masterRequests (r : Except PyErr (List Request)) : List Request :=
  match r with
  | .ok reqs => reqs
  | .error _ => []

/-- Modelled from the spec: `Outlet.turn_on` of the missing
`pywattbox/base.py` issues `sendCommand(index, ON)` (spec section 4.2). -/
def Outlet.turn_on (o : Outlet) : List Request :=
  send_command (o.index : Int) .ON

/-- Modelled from the spec: `Outlet.turn_off` issues
`sendCommand(index, OFF)`. -/
def Outlet.turn_off (o : Outlet) : List Request :=
  send_command (o.index : Int) .OFF

/-- Modelled from the spec: `Outlet.reset` issues the RESET command (wire
code 3, "turn off then on" semantics on this dialect, spec sections 4.2
and 6). -/
def Outlet.reset (o : Outlet) : List Request :=
  send_command (o.index : Int) .RESET

/-- `self._client.outlets[outlet]` — Python dict subscript on the outlet
dictionary: a missing key raises `KeyError`. -/
def outletLookup (s : ClientState) (idx : Int) : Except PyErr Outlet :=
  match s.outlets.find? (fun o => (o.index : Int) == idx) with
  | some o => .ok o
  | none => .error .keyError

/-- `PyWattBoxWrapper.turn_on_outlet`: `self._client.outlets[outlet].turn_on()`
(the subscript comes first, so an unknown index raises `KeyError`).  The
Python method returns `None`. -/
def turn_on_outlet (idx : Int) (s : ClientState) : Except PyErr (List Request) :=
  (outletLookup s idx).map Outlet.turn_on

/-- `PyWattBoxWrapper.turn_off_outlet`. -/
def turn_off_outlet (idx : Int) (s : ClientState) : Except PyErr (List Request) :=
  (outletLookup s idx).map Outlet.turn_off

/-- `PyWattBoxWrapper.reset_outlet`. -/
def reset_outlet (idx : Int) (s : ClientState) : Except PyErr (List Request) :=
  (outletLookup s idx).map Outlet.reset

/-- The per-outlet power triple returned by the facade read paths. -/
structure OutletPower where
  power_watts : Option ℚ
  current_amps : Option ℚ
  voltage_volts : Option ℚ
deriving DecidableEq

/-- `PyWattBoxWrapper.get_outlet_power_status`: membership in the outlet
dictionary is checked first, so an unknown index returns `None` instead of
raising. -/
def get_outlet_power_status (idx : Int) (s : ClientState) : Option OutletPower :=
  match s.outlets.find? (fun o => (o.index : Int) == idx) with
  | none => none
  | some o =>
      some { power_watts := o.power_value
             current_amps := o.current_value
             voltage_volts := o.voltage_value }

/-- Modelled from the spec: the per-outlet result record of the missing
`pywattbox_800/models.py`, as populated by
`PyWattBoxWrapper.get_device_info`. -/
structure OutletInfo where
  index : Nat
  name : String
  status : Bool
  power_watts : Option ℚ
  current_amps : Option ℚ
  voltage_volts : Option ℚ
deriving DecidableEq

/-- Modelled from the spec: the system-identity record of the missing
`pywattbox_800/models.py`. -/
structure SystemInfo where
  model : String
  firmware : String
  hostname : String
  service_tag : String
  outlet_count : Int
deriving DecidableEq

/-- Modelled from the spec: the device power record of the missing
`pywattbox_800/models.py`. -/
structure PowerStatus where
  power_watts : Option Int
  current_amps : Option ℚ
  voltage_volts : Option ℚ
  safe_voltage_status : Bool
deriving DecidableEq

/-- Modelled from the spec: the UPS record of the missing
`pywattbox_800/models.py`. -/
structure UPSStatus where
  battery_charge : Option Int
  battery_load : Option Int
  battery_health : String
  battery_runtime : Option Int
  power_lost : Option Bool
  alarm_enabled : Bool
  alarm_muted : Bool
deriving DecidableEq

/-- Modelled from the spec: the aggregation result of the missing
`pywattbox_800/models.py`. -/
structure WattBoxDevice where
  system_info : SystemInfo
  outlets : List OutletInfo
  power_status : PowerStatus
  ups_status : Option UPSStatus
  ups_connected : Option Bool
  auto_reboot_enabled : Option Bool
deriving DecidableEq

/-- `PyWattBoxWrapper.get_ups_connection_status`:
`getattr(self._client, 'has_ups', False)` returned raw. -/
def get_ups_connection_status (s : ClientState) : Option Bool :=
  s.has_ups

/-- `PyWattBoxWrapper.get_device_info` with `refresh=False` (the refresh
branch performs a network poll and then this same aggregation).  Note the
Python or-defaults: a missing outlet name becomes `"Unknown Outlet"`, a
`None` outlet status becomes `False` (`o.status or False`), and the
safe-voltage flag is coerced with `bool(...)`; the numeric power fields
pass through unchanged. -/
def get_device_info (s : ClientState) : WattBoxDevice :=
  { system_info :=
      { model := pyOrStr s.hardware_version "Unknown Model"
        firmware := pyOrStr s.firmware_version "Unknown Firmware"
        hostname := pyOrStr s.hostname "Unknown Hostname"
        service_tag := pyOrStr s.serial_number "Unknown Serial"
        outlet_count := s.number_outlets }
    outlets := s.outlets.map (fun o =>
      { index := o.index
        name := pyOrStr o.name "Unknown Outlet"
        status := truthy o.status
        power_watts := o.power_value
        current_amps := o.current_value
        voltage_volts := o.voltage_value })
    power_status :=
      { power_watts := s.power_value
        current_amps := s.current_value
        voltage_volts := s.voltage_value
        safe_voltage_status := truthy s.safe_voltage_status }
    ups_status :=
      if truthy s.has_ups then
        some { battery_charge := s.battery_charge
               battery_load := s.battery_load
               battery_health := pyStr s.battery_health
               battery_runtime := s.est_run_time
               power_lost := s.power_lost
               alarm_enabled := truthy s.audible_alarm
               alarm_muted := truthy s.mute }
      else none
    ups_connected := get_ups_connection_status s
    auto_reboot_enabled := s.auto_reboot }

/-- The capability error of the facade. -/
inductive WrapperErr where
  | notImplementedError
deriving DecidableEq

/-- `PyWattBoxWrapper.ping`: unconditionally raises
`NotImplementedError`. -/
def ping (_ : ClientState) : Except WrapperErr Unit :=
  .error .notImplementedError

/-- `PyWattBoxWrapper.reboot_device`: unconditionally raises
`NotImplementedError`. -/
def reboot_device (_ : ClientState) : Except WrapperErr Unit :=
  .error .notImplementedError

/-- `PyWattBoxWrapper.set_auto_reboot`: unconditionally raises
`NotImplementedError`. -/
def set_auto_reboot (_ : Bool) (_ : ClientState) : Except WrapperErr Unit :=
  .error .notImplementedError

/-- `self._cooldown_period = 5` seconds, shared by `WattBoxOutletSwitch`
and `WattBoxMasterSwitch`. -/
def cooldown_period : ℚ := 5

/-- `self._operation_delay = 2` seconds (post-command settle delay). -/
def operation_delay : ℚ := 2

/-- The per-entity cooldown bookkeeping (`self._last_operation_time`,
initially 0 and set to `time.time()` after a successful command). -/
structure SwitchState where
  last_operation_time : ℚ
deriving DecidableEq

/-- `WattBoxOutletSwitch._is_in_cooldown` /
`WattBoxMasterSwitch._is_in_cooldown`:
`(current_time - self._last_operation_time) < self._cooldown_period`. -/
def is_in_cooldown (now : ℚ) (sw : SwitchState) : Bool :=
  now - sw.last_operation_time < cooldown_period

/-- `_get_cooldown_remaining`:
`max(0, self._cooldown_period - elapsed)`. -/
def get_cooldown_remaining (now : ℚ) (sw : SwitchState) : ℚ :=
  max 0 (cooldown_period - (now - sw.last_operation_time))

/-- The `ServiceValidationError` a switch raises while in cooldown,
carrying the remaining wait reported in its message. -/
structure CooldownRejection where
  remaining : ℚ
deriving DecidableEq

/-- `WattBoxOutletSwitch.async_turn_on` / `async_turn_off` (identical but
for which wrapper method the executor job runs; `call` is that job's
outcome: the issued requests plus the Python truthiness of its return
value, which is `False` for the `None`-returning HTTP wrapper methods).
Inside the cooldown window the command is rejected with the remaining
wait and nothing is issued; otherwise the call is attempted, the
operation time is recorded only on a truthy result, and a raised client
exception is caught and logged. -/
def outlet_switch_turn (now : ℚ) (sw : SwitchState)
    (call : Except PyErr (List Request × Bool)) :
    Except CooldownRejection (List Request × SwitchState) :=
  if is_in_cooldown now sw then
    .error { remaining := get_cooldown_remaining now sw }
  else
    match call with
    | .ok (reqs, success) =>
        .ok (reqs, if success then { last_operation_time := now } else sw)
    | .error _ => .ok ([], sw)

/-- The per-outlet fan-out of `WattBoxMasterSwitch.async_turn_on`: turn on
each coordinator-reported outlet that is off, one wrapper call per outlet
(with a 100 ms pacing sleep), stopping at the first client exception,
which the surrounding handler swallows.  The boolean records whether the
loop finished without raising. -/
def master_fanout_on (s : ClientState) : List OutletInfo → List Request × Bool
  | [] => ([], true)
  | o :: rest =>
      if !o.status then
        match turn_on_outlet (o.index : Int) s with
        | .ok reqs =>
            let r := master_fanout_on s rest
            (reqs ++ r.1, r.2)
        | .error _ => ([], false)
      else master_fanout_on s rest

/-- `WattBoxMasterSwitch.async_turn_on`: cooldown gate, then the
per-outlet fan-out over the coordinator data (skipped entirely when the
data or its outlet list is falsy); the operation time is recorded only
when the loop completed. -/
def master_turn_on (now : ℚ) (sw : SwitchState)
    (dataOutlets : Option (List OutletInfo)) (s : ClientState) :
    Except CooldownRejection (List Request × SwitchState) :=
  if is_in_cooldown now sw then
    .error { remaining := get_cooldown_remaining now sw }
  else
    match dataOutlets with
    | some outs =>
        if outs.isEmpty then .ok ([], sw)
        else
          let r := master_fanout_on s outs
          .ok (r.1, if r.2 then { last_operation_time := now } else sw)
    | none => .ok ([], sw)

/-- `WattBoxMasterSwitch.async_turn_off`: cooldown gate, then a single
`client.turn_off_outlet(0)` executor job ("0 = all outlets" per the
source comment); a raised exception is caught, and the `None` return of
the HTTP wrapper is falsy so the operation time is never recorded on this
path. -/
def master_turn_off (now : ℚ) (sw : SwitchState) (s : ClientState) :
    Except CooldownRejection (List Request × SwitchState) :=
  if is_in_cooldown now sw then
    .error { remaining := get_cooldown_remaining now sw }
  else
    match turn_off_outlet 0 s with
    | .ok reqs => .ok (reqs, sw)
    | .error _ => .ok ([], sw)

/-- The device requests a switch interaction issued. -/
def requestsOf (r : Except CooldownRejection (List Request × SwitchState)) :
    List Request :=
  match r with
  | .ok out => out.1
  | .error _ => []

/-- The on/off state a valid master command drives its outlets toward
(the spec's "commanded target"). -/
def commandTarget : Commands → Option Bool
  | .ON => some true
  | _ => some false

/-- Demonstration payload: three outlets, outlets 1 and 3
master-controlled, outlet 2 off. -/
def p_master_demo : Payload :=
  { outlet_status := some "1,0,1", outlet_method := some "1,0,1" }

/-- Client state right after `parse_initial` on `p_master_demo`. -/
def s_master_demo : ClientState :=
  parse_initial p_master_demo initClient

/-- Payload whose `outlet_status` field is present but empty while a
hardware model with outlet-count suffix 12 is available. -/
def p_blank_status : Payload :=
  { hardware_version := some "WB-700-IPV-12", outlet_status := some "" }

/-- Payload with a three-entry `outlet_status`. -/
def p_three : Payload :=
  { outlet_status := some "1,0,1" }

/-- A snapshot with two initialized outlets (index domain `{1, 2}`). -/
def s_two_outlets : ClientState :=
  parse_initial { outlet_status := some "1,1" } initClient

/-- The test server's `wattbox_info.xml` example document
(`test_server_700/wattbox_test_server.py`): a WB-700-IPV-12 with all 12
outlets on, `outlet_mode` all `"1"`, power 600, current 100, voltage
1200. -/
def p_twelve : Payload :=
  { host_name := some "TestWattBox700"
    hardware_version := some "WB-700-IPV-12"
    serial_number := some "1234567890"
    auto_reboot := some "0"
    outlet_name := some "Outlet 1,Outlet 2,Outlet 3,Outlet 4,Outlet 5,Outlet 6,Outlet 7,Outlet 8,Outlet 9,Outlet 10,Outlet 11,Outlet 12"
    outlet_status := some "1,1,1,1,1,1,1,1,1,1,1,1"
    outlet_mode := some "1,1,1,1,1,1,1,1,1,1,1,1"
    safe_voltage_status := some "1"
    voltage_value := some "1200"
    current_value := some "100"
    power_value := some "600" }

/-- The client snapshot after `get_initial` against the test server. -/
def s_twelve : ClientState :=
  resState (get_initial_state p_twelve initClient) initClient

/-- Status document carrying no `outlet_status` field, for a one-outlet
model. -/
def p_nostatus : Payload :=
  { hardware_version := some "WB-700-IPV-1" }

/-- The same document with the one outlet explicitly reported off. -/
def p_zerostatus : Payload :=
  { hardware_version := some "WB-700-IPV-1", outlet_status := some "0" }

/-- Snapshot after `get_initial` on the document without outlet status:
the outlet's status attribute stays unset. -/
def s_absent : ClientState :=
  resState (get_initial_state p_nostatus initClient) initClient

/-- Snapshot after `get_initial` on the document reporting status 0. -/
def s_zero : ClientState :=
  resState (get_initial_state p_zerostatus initClient) initClient

/-- Status document carrying only the three numeric power fields. -/
def p_meter : Payload :=
  { power_value := some "600", current_value := some "100",
    voltage_value := some "1200" }

/-- Outlet collection for the master fan-out demonstration: outlet 1
flagged and off, outlet 2 flagged and on, outlet 3 unflagged and off. -/
def s_fanout_demo : ClientState :=
  { outlets :=
      [ { index := 1, method := some true, status := some false },
        { index := 2, method := some true, status := some true },
        { index := 3, status := some false } ] }

/-- A status document with every field absent. -/
def p_empty : Payload := {}

/-- C6: calling an operation the HTTP dialect does not support — device
reboot, ping, or auto-reboot configuration — on the HTTP facade always
raises the distinguishable `NotImplementedError` and never returns a
success value or silently no-ops. -/
theorem http_capability_unsupported (s : ClientState) (b : Bool) :
    ping s = .error .notImplementedError ∧
    reboot_device s = .error .notImplementedError ∧
    set_auto_reboot b s = .error .notImplementedError ∧
    (∀ u, ping s ≠ .ok u) ∧
    (∀ u, reboot_device s ≠ .ok u) ∧
    (∀ u, set_auto_reboot b s ≠ .ok u) := by
  refine ⟨rfl, rfl, rfl, ?_, ?_, ?_⟩ <;> intro u h <;> exact Except.noConfusion h

/-- C4: for every command other than ON or OFF, `send_master_command`
fails validation locally — the check precedes the fan-out loop, so no
request is issued — and the client state is unchanged. -/
theorem master_command_validation (command : Commands) (s : ClientState)
    (hc : command ≠ .ON ∧ command ≠ .OFF) :
    check_master_command command = .error .valueError ∧
    (send_master_command command s).1 = s ∧
    (send_master_command command s).2 = .error .valueError ∧
    masterRequests (send_master_command command s).2 = [] := by
  have hchk : check_master_command command = .error .valueError := by
    unfold check_master_command
    rw [if_neg]
    rintro (h | h) <;> [exact hc.1 h; exact hc.2 h]
  refine ⟨hchk, ?_, ?_, ?_⟩ <;> simp [send_master_command, hchk, masterRequests]

/-- C4 witness: `Commands.RESET` is rejected with no request and no state
change. -/
theorem master_command_validation_witness :
    (Commands.RESET ≠ Commands.ON ∧ Commands.RESET ≠ Commands.OFF) ∧
    (send_master_command .RESET initClient).1 = initClient ∧
    (send_master_command .RESET initClient).2 = .error .valueError ∧
    masterRequests (send_master_command .RESET initClient).2 = [] :=
  ⟨by decide,
   (master_command_validation .RESET initClient (by decide)).2.1,
   (master_command_validation .RESET initClient (by decide)).2.2.1,
   (master_command_validation .RESET initClient (by decide)).2.2.2⟩

/-- C7 counterexample: with index domain `{1, 2}`, the facade command
`turn_on_outlet 5` raises `KeyError` — an error throw, not a silent
lookup miss — refuting the claim that out-of-domain commands never raise
(the sensor read path does return an absent value). -/
theorem out_of_domain_counterexample :
    s_two_outlets.outlets.map (fun o => o.index) = [1, 2] ∧
    get_outlet_power_status 5 s_two_outlets = none ∧
    turn_on_outlet 5 s_two_outlets = .error .keyError := by
  exact ⟨by decide, by decide, rfl⟩

/-- C7 amended: for an index outside the established domain, the sensor
read `get_outlet_power_status` is a lookup miss returning an absent
value, while the facade commands (`turn_on_outlet`, `turn_off_outlet`,
`reset_outlet`) raise `KeyError` from the dict subscript. -/
theorem out_of_domain_lookup_behavior (idx : Int) (s : ClientState)
    (h : ∀ o ∈ s.outlets, (o.index : Int) ≠ idx) :
    get_outlet_power_status idx s = none ∧
    turn_on_outlet idx s = .error .keyError ∧
    turn_off_outlet idx s = .error .keyError ∧
    reset_outlet idx s = .error .keyError := by
  have hf : s.outlets.find? (fun o => (o.index : Int) == idx) = none := by
    apply List.find?_eq_none.mpr
    intro o ho
    simpa using h o ho
  refine ⟨?_, ?_, ?_, ?_⟩ <;>
    simp [get_outlet_power_status, turn_on_outlet, turn_off_outlet,
      reset_outlet, outletLookup, hf, Except.map]

/-- C7 amended witness at index 5 over the two-outlet domain. -/
theorem out_of_domain_lookup_behavior_witness :
    (∀ o ∈ s_two_outlets.outlets, (o.index : Int) ≠ 5) ∧
    get_outlet_power_status 5 s_two_outlets = none ∧
    turn_off_outlet 5 s_two_outlets = .error .keyError :=
  ⟨by decide,
   (out_of_domain_lookup_behavior 5 s_two_outlets (by decide)).1,
   (out_of_domain_lookup_behavior 5 s_two_outlets (by decide)).2.2.1⟩

/-- C8: evaluating `WattBoxMasterSwitch.async_turn_off` at the test
server's device (outlet dictionary keyed 1..12): the wrapper call
`turn_off_outlet(0)` subscripts the outlet dictionary at the absent key 0
and raises `KeyError` before any device command, the exception is caught,
and zero requests are issued — contradicting the source's own
"0 = all outlets" comment and the claimed single command to outlet 0. -/
theorem master_turn_off_issues_no_command (now : ℚ) (sw : SwitchState)
    (h : is_in_cooldown now sw = false) :
    s_twelve.outlets.map (fun o => o.index)
      = [1, 2, 3, 4, 5, 6, 7, 8, 9, 10, 11, 12] ∧
    turn_off_outlet 0 s_twelve = .error .keyError ∧
    master_turn_off now sw s_twelve = .ok ([], sw) ∧
    requestsOf (master_turn_off now sw s_twelve) = [] := by
  have h2 : turn_off_outlet 0 s_twelve = .error .keyError := rfl
  refine ⟨by decide, h2, ?_, ?_⟩
  · simp [master_turn_off, h, h2]
  · simp [requestsOf, master_turn_off, h, h2]

/-- C8 witness: 100 seconds after start the master switch is not in
cooldown, yet its turn-off issues no device request at all. -/
theorem master_turn_off_issues_no_command_witness :
    is_in_cooldown 100 { last_operation_time := 0 } = false ∧
    turn_off_outlet 0 s_twelve = .error .keyError ∧
    requestsOf (master_turn_off 100 { last_operation_time := 0 } s_twelve) = [] := by
  have h : is_in_cooldown 100 { last_operation_time := 0 } = false := by
    norm_num [is_in_cooldown, cooldown_period]
  exact ⟨h, (master_turn_off_issues_no_command 100 _ h).2.1,
    (master_turn_off_issues_no_command 100 _ h).2.2.2⟩

/-- C2 counterexample: with `outlet_status` present but empty and hardware
model "WB-700-IPV-12" available, the claimed fallback to the trailing
model suffix would give 12 outlets, but `parse_initial` short-circuits a
present-but-blank field to 0 without consulting the model string. -/
theorem outlet_count_priority_counterexample :
    p_blank_status.outlet_status = some "" ∧
    p_blank_status.hardware_version = some "WB-700-IPV-12" ∧
    (parse_initial p_blank_status initClient).number_outlets = 0 ∧
    ¬ (parse_initial p_blank_status initClient).number_outlets = 12 := by
  decide

/-- C2 amended: the outlet count of `parse_initial` is the number of
comma-separated entries of a present non-blank `outlet_status`; 0 for a
present blank one (the hardware model is NOT consulted in that case); the
trailing numeric suffix of the available hardware-model string (0 when
that suffix does not parse) only when the field is absent; 0 otherwise —
and the parser then creates exactly that many fresh outlet entries with
indices 1..N in positional order. -/
theorem outlet_count_resolution (p : Payload) (s : ClientState) :
    (∀ txt, p.outlet_status = some txt →
      ((txt ≠ "" ∧ pyStrip txt ≠ "") →
        (parse_initial p s).number_outlets = ((pySplit txt ',').length : Int)) ∧
      (¬ (txt ≠ "" ∧ pyStrip txt ≠ "") →
        (parse_initial p s).number_outlets = 0)) ∧
    (p.outlet_status = none →
      (∀ hv, updField s.hardware_version p.hardware_version id = some hv →
        (parse_initial p s).number_outlets = (pyInt (lastDashPart hv)).getD 0) ∧
      (updField s.hardware_version p.hardware_version id = none →
        (parse_initial p s).number_outlets = 0)) ∧
    (parse_initial p s).outlets.map (fun o => o.index)
      = List.range' 1 (parse_initial p s).number_outlets.toNat ∧
    (parse_initial p s).outlets
      = (List.range (parse_initial p s).number_outlets.toNat).map
          (fun k => { index := k + 1 }) := by
  refine ⟨?_, ?_, ?_, ?_⟩
  · intro txt htxt
    constructor
    · intro hcond
      simp [parse_initial, htxt, bne_iff_ne, hcond.1, hcond.2]
    · intro hcond
      have hb : (txt != "" && pyStrip txt != "") = false := by
        rcases not_and_or.mp hcond with h1 | h1
        · simp [bne_iff_ne, not_not.mp h1]
        · simp [bne_iff_ne, not_not.mp h1]
      simp [parse_initial, htxt, hb]
  · intro hns
    constructor
    · intro hv hhv
      simp [parse_initial, hns, hhv]
      cases hpi : pyInt (lastDashPart hv) <;> simp [hpi]
    · intro hhv
      simp [parse_initial, hns, hhv]
  · simp only [parse_initial]
    rw [List.map_map, List.range'_eq_map_range]
    simp [Function.comp, Nat.add_comm]
  · rfl

/-- C2 amended witness: a three-entry status string yields exactly three
outlets with indices 1, 2, 3. -/
theorem outlet_count_resolution_witness :
    p_three.outlet_status = some "1,0,1" ∧
    ("1,0,1" ≠ "" ∧ pyStrip "1,0,1" ≠ "") ∧
    (parse_initial p_three initClient).number_outlets
      = ((pySplit "1,0,1" ',').length : Int) ∧
    (parse_initial p_three initClient).outlets.map (fun o => o.index)
      = List.range' 1 (parse_initial p_three initClient).number_outlets.toNat :=
  ⟨rfl, by decide,
   ((outlet_count_resolution p_three initClient).1 "1,0,1" rfl).1 (by decide),
   (outlet_count_resolution p_three initClient).2.2.1⟩

/-- A successful `parse_update` is `parse_update_core` applied to
successfully decoded integer fields. -/
theorem parse_update_ok_shape (p : Payload) (s s₁ : ClientState)
    (h : parse_update p s = .ok s₁) :
    ∃ pv cv vv bc bl ert,
      optIntE p.power_value = .ok pv ∧
      optIntE p.current_value = .ok cv ∧
      optIntE p.voltage_value = .ok vv ∧
      (if truthy s.has_ups then optIntE p.battery_charge else .ok none) = .ok bc ∧
      (if truthy s.has_ups then optIntE p.battery_load else .ok none) = .ok bl ∧
      (if truthy s.has_ups then optIntE p.est_run_time else .ok none) = .ok ert ∧
      s₁ = parse_update_core p s pv cv vv bc bl ert := by
  unfold parse_update at h
  split at h
  case _ pv cv vv bc bl ert h1 h2 h3 h4 h5 h6 =>
    injection h with h
    exact ⟨pv, cv, vv, bc, bl, ert, h1, h2, h3, h4, h5, h6, h.symm⟩
  all_goals exact Except.noConfusion h

/-- When the snapshot holds a master outlet, `parse_update_core` replaces
its status with the freshly derived value. -/
theorem core_master_status (p : Payload) (s : ClientState)
    (pv cv vv bc bl ert : Option Int) (m : MasterOutlet)
    (hm : s.master_outlet = some m) :
    (parse_update_core p s pv cv vv bc bl ert).master_outlet
      = some { status := some (masterStatusCalc
          (parse_update_core p s pv cv vv bc bl ert).outlets) } := by
  simp [parse_update_core, hm]

/-- C1: after each `parse_update` on a snapshot holding a master outlet,
the derived master status equals the logical AND of the on/off status
over exactly those outlets whose master-controlled `method` flag is set;
when no outlet has the flag set the subset is empty and the master status
is vacuously true. -/
theorem master_status_and (p : Payload) (s : ClientState)
    (hok : exceptOk (parse_update p s) = true)
    (hm : s.master_outlet.isSome = true) :
    (∃ m, (resState (parse_update p s) s).master_outlet = some m ∧
      m.status = some
        (((resState (parse_update p s) s).outlets.filter
            (fun o => truthy o.method)).all (fun o => truthy o.status))) ∧
    (((resState (parse_update p s) s).outlets.filter
        (fun o => truthy o.method)) = [] →
      ((resState (parse_update p s) s).master_outlet).map (fun m => m.status)
        = some (some true)) := by
  cases hres : parse_update p s with
  | error e =>
    rw [hres] at hok
    exact absurd hok (by simp [exceptOk])
  | ok s₁ =>
    obtain ⟨pv, cv, vv, bc, bl, ert, _, _, _, _, _, _, hs⟩ :=
      parse_update_ok_shape p s s₁ hres
    obtain ⟨m, hm'⟩ := Option.isSome_iff_exists.mp hm
    subst hs
    simp only [resState]
    have hmas := core_master_status p s pv cv vv bc bl ert m hm'
    constructor
    · exact ⟨_, hmas, rfl⟩
    · intro hemp
      rw [hmas]
      simp [masterStatusCalc, hemp]

/-- C1 witness: three decoded outlets, outlets 1 and 3 master-controlled
and on, outlet 2 off but unflagged — the master status is the AND over
the flagged subset. -/
theorem master_status_and_witness :
    exceptOk (parse_update p_master_demo s_master_demo) = true ∧
    s_master_demo.master_outlet.isSome = true ∧
    (∃ m, (resState (parse_update p_master_demo s_master_demo)
        s_master_demo).master_outlet = some m ∧
      m.status = some
        (((resState (parse_update p_master_demo s_master_demo)
            s_master_demo).outlets.filter
              (fun o => truthy o.method)).all (fun o => truthy o.status))) :=
  ⟨by decide, by decide,
   (master_status_and p_master_demo s_master_demo (by decide) (by decide)).1⟩

/-- C9: in every status decode, a present `current_value` or
`voltage_value` field is stored as the raw integer divided by 10, while a
present `power_value` field is stored as the raw integer undivided. -/
theorem tenths_decode (p : Payload) (s : ClientState)
    (hok : exceptOk (parse_update p s) = true) :
    (∀ t n, p.current_value = some t → pyInt t = some n →
      (resState (parse_update p s) s).current_value = some ((n : ℚ) / 10)) ∧
    (∀ t n, p.voltage_value = some t → pyInt t = some n →
      (resState (parse_update p s) s).voltage_value = some ((n : ℚ) / 10)) ∧
    (∀ t n, p.power_value = some t → pyInt t = some n →
      (resState (parse_update p s) s).power_value = some n) := by
  cases hres : parse_update p s with
  | error e =>
    rw [hres] at hok
    exact absurd hok (by simp [exceptOk])
  | ok s₁ =>
    obtain ⟨pv, cv, vv, bc, bl, ert, h1, h2, h3, _, _, _, hs⟩ :=
      parse_update_ok_shape p s s₁ hres
    subst hs
    simp only [resState]
    refine ⟨?_, ?_, ?_⟩
    · intro t n ht hn
      rw [ht] at h2
      simp only [optIntE, hn, Except.ok.injEq] at h2
      rw [← h2]
      simp [parse_update_core, setFromTenths, tenths]
    · intro t n ht hn
      rw [ht] at h3
      simp only [optIntE, hn, Except.ok.injEq] at h3
      rw [← h3]
      simp [parse_update_core, setFromTenths, tenths]
    · intro t n ht hn
      rw [ht] at h1
      simp only [optIntE, hn, Except.ok.injEq] at h1
      rw [← h1]
      simp [parse_update_core, setFromInt]

/-- C9 witness: raw current 100 decodes to 10, raw voltage 1200 to 120,
raw power 600 stays 600. -/
theorem tenths_decode_witness :
    exceptOk (parse_update p_meter initClient) = true ∧
    (resState (parse_update p_meter initClient) initClient).current_value
      = some ((100 : ℚ) / 10) ∧
    (resState (parse_update p_meter initClient) initClient).voltage_value
      = some ((1200 : ℚ) / 10) ∧
    (resState (parse_update p_meter initClient) initClient).power_value
      = some 600 ∧
    ((100 : ℚ) / 10 = 10 ∧ (1200 : ℚ) / 10 = 120) :=
  ⟨by decide,
   (tenths_decode p_meter initClient (by decide)).1 "100" 100 rfl (by decide),
   (tenths_decode p_meter initClient (by decide)).2.1 "1200" 1200 rfl (by decide),
   (tenths_decode p_meter initClient (by decide)).2.2 "600" 600 rfl (by decide),
   by norm_num⟩

/-- C10 counterexample: after polls that differ only in whether the
outlet-status field was absent or reported `"0"`, the parser does keep
the distinction (status unset vs. `some false`), but the facade's
`get_device_info` aggregation collapses both to the same result
(`o.status or False`), so callers cannot distinguish "unsupported by
firmware" from "is off/zero" through that read path. -/
theorem absent_vs_zero_counterexample :
    s_absent.outlets.map (fun o => o.status) = [none] ∧
    s_zero.outlets.map (fun o => o.status) = [some false] ∧
    s_absent ≠ s_zero ∧
    get_device_info s_absent = get_device_info s_zero := by
  refine ⟨by decide, by decide, by decide, ?_⟩
  decide

/-- A positional per-outlet decode does not disturb outlet fields other
than the one its setter writes. -/
theorem map_proj_applyOutletField {β : Type} (entries : List String)
    (setF : Outlet → String → Outlet) (proj : Outlet → β)
    (hpres : ∀ o t, proj (setF o t) = proj o) (l : List Outlet) :
    (applyOutletField entries setF l).map proj = l.map proj := by
  unfold applyOutletField
  rw [List.map_map]
  apply List.map_congr_left
  intro o _
  by_cases h : 1 ≤ o.index ∧ o.index ≤ entries.length <;> simp [h, hpres]

/-- `map_proj_applyOutletField` for a possibly absent payload field. -/
theorem map_proj_optApplyOutletField {β : Type} (fld : Option String)
    (setF : Outlet → String → Outlet) (proj : Outlet → β)
    (hpres : ∀ o t, proj (setF o t) = proj o) (l : List Outlet) :
    (optApplyOutletField fld setF l).map proj = l.map proj := by
  cases fld with
  | none => rfl
  | some txt => exact map_proj_applyOutletField _ _ _ hpres l

/-- An absent payload field leaves the outlet collection untouched. -/
theorem optApplyOutletField_none (setF : Outlet → String → Outlet)
    (l : List Outlet) : optApplyOutletField none setF l = l := rfl

/-- C10 amended: a field absent from the XML leaves the corresponding
device/outlet attribute unset (unchanged) rather than defaulted, and the
facade's `get_device_info` preserves the absent-vs-zero distinction for
the numeric power/current/voltage fields (device-level and per-outlet);
the distinction is NOT preserved for the boolean status and safe-voltage
fields or the names, which the aggregation coerces to defaults. -/
theorem absent_field_semantics (p : Payload) (s : ClientState)
    (hok : exceptOk (parse_update p s) = true) :
    (p.audible_alarm = none →
      (resState (parse_update p s) s).audible_alarm = s.audible_alarm) ∧
    (p.auto_reboot = none →
      (resState (parse_update p s) s).auto_reboot = s.auto_reboot) ∧
    (p.cloud_status = none →
      (resState (parse_update p s) s).cloud_status = s.cloud_status) ∧
    (p.mute = none → (resState (parse_update p s) s).mute = s.mute) ∧
    (p.power_lost = none →
      (resState (parse_update p s) s).power_lost = s.power_lost) ∧
    (p.safe_voltage_status = none →
      (resState (parse_update p s) s).safe_voltage_status
        = s.safe_voltage_status) ∧
    (p.power_value = none →
      (resState (parse_update p s) s).power_value = s.power_value) ∧
    (p.current_value = none →
      (resState (parse_update p s) s).current_value = s.current_value) ∧
    (p.voltage_value = none →
      (resState (parse_update p s) s).voltage_value = s.voltage_value) ∧
    (p.battery_charge = none →
      (resState (parse_update p s) s).battery_charge = s.battery_charge) ∧
    (p.battery_health = none →
      (resState (parse_update p s) s).battery_health = s.battery_health) ∧
    (p.battery_load = none →
      (resState (parse_update p s) s).battery_load = s.battery_load) ∧
    (p.battery_test = none →
      (resState (parse_update p s) s).battery_test = s.battery_test) ∧
    (p.est_run_time = none →
      (resState (parse_update p s) s).est_run_time = s.est_run_time) ∧
    (p.outlet_method = none ∧ p.outlet_mode = none →
      (resState (parse_update p s) s).outlets.map (fun o => o.method)
        = s.outlets.map (fun o => o.method)) ∧
    (p.outlet_name = none →
      (resState (parse_update p s) s).outlets.map (fun o => o.name)
        = s.outlets.map (fun o => o.name)) ∧
    (p.outlet_status = none →
      (resState (parse_update p s) s).outlets.map (fun o => o.status)
        = s.outlets.map (fun o => o.status)) ∧
    (get_device_info s).power_status.power_watts = s.power_value ∧
    (get_device_info s).power_status.current_amps = s.current_value ∧
    (get_device_info s).power_status.voltage_volts = s.voltage_value ∧
    (get_device_info s).outlets.map (fun oi => oi.power_watts)
      = s.outlets.map (fun o => o.power_value) ∧
    (get_device_info s).outlets.map (fun oi => oi.current_amps)
      = s.outlets.map (fun o => o.current_value) ∧
    (get_device_info s).outlets.map (fun oi => oi.voltage_volts)
      = s.outlets.map (fun o => o.voltage_value) := by
  cases hres : parse_update p s with
  | error e =>
    rw [hres] at hok
    exact absurd hok (by simp [exceptOk])
  | ok s₁ =>
    obtain ⟨pv, cv, vv, bc, bl, ert, h1, h2, h3, h4, h5, h6, hs⟩ :=
      parse_update_ok_shape p s s₁ hres
    subst hs
    simp only [resState]
    refine ⟨?_, ?_, ?_, ?_, ?_, ?_, ?_, ?_, ?_, ?_, ?_, ?_, ?_, ?_, ?_, ?_,
      ?_, ?_, ?_, ?_, ?_, ?_, ?_⟩
    · intro hf; simp [parse_update_core, updField, hf]
    · intro hf; simp [parse_update_core, updField, hf]
    · intro hf; simp [parse_update_core, updField, hf]
    · intro hf; simp [parse_update_core, updField, hf]
    · intro hf; simp [parse_update_core, updField, hf]
    · intro hf; simp [parse_update_core, updField, hf]
    · intro hf
      rw [hf] at h1
      simp only [optIntE, Except.ok.injEq] at h1
      simp [parse_update_core, setFromInt, ← h1]
    · intro hf
      rw [hf] at h2
      simp only [optIntE, Except.ok.injEq] at h2
      simp [parse_update_core, setFromTenths, ← h2]
    · intro hf
      rw [hf] at h3
      simp only [optIntE, Except.ok.injEq] at h3
      simp [parse_update_core, setFromTenths, ← h3]
    · intro hf
      rw [hf] at h4
      have hbc : bc = none := by
        cases hu : truthy s.has_ups <;> rw [hu] at h4 <;>
          simpa [optIntE] using h4.symm
      simp [parse_update_core, setFromInt, hbc]
    · intro hf
      cases hu : truthy s.has_ups <;>
        simp [parse_update_core, updField, hf, hu]
    · intro hf
      rw [hf] at h5
      have hbl : bl = none := by
        cases hu : truthy s.has_ups <;> rw [hu] at h5 <;>
          simpa [optIntE] using h5.symm
      simp [parse_update_core, setFromInt, hbl]
    · intro hf
      cases hu : truthy s.has_ups <;>
        simp [parse_update_core, updField, hf, hu]
    · intro hf
      rw [hf] at h6
      have hert : ert = none := by
        cases hu : truthy s.has_ups <;> rw [hu] at h6 <;>
          simpa [optIntE] using h6.symm
      simp [parse_update_core, setFromInt, hert]
    · intro hf
      simp only [parse_update_core, hf.1, hf.2]
      exact (map_proj_optApplyOutletField p.outlet_status
          (fun o t => { o with status := some (isOne t) }) (fun o => o.method)
          (fun o t => rfl) _).trans
        (map_proj_optApplyOutletField p.outlet_name
          (fun o t => { o with name := some t }) (fun o => o.method)
          (fun o t => rfl) s.outlets)
    · intro hf
      simp only [parse_update_core, hf]
      exact (map_proj_optApplyOutletField p.outlet_status
          (fun o t => { o with status := some (isOne t) }) (fun o => o.name)
          (fun o t => rfl) _).trans
        (map_proj_optApplyOutletField
          (match p.outlet_method with
            | some t => some t
            | none => p.outlet_mode)
          (fun o t => { o with method := some (isOne t) }) (fun o => o.name)
          (fun o t => rfl) s.outlets)
    · intro hf
      simp only [parse_update_core, hf]
      exact (map_proj_optApplyOutletField p.outlet_name
          (fun o t => { o with name := some t }) (fun o => o.status)
          (fun o t => rfl) _).trans
        (map_proj_optApplyOutletField
          (match p.outlet_method with
            | some t => some t
            | none => p.outlet_mode)
          (fun o t => { o with method := some (isOne t) }) (fun o => o.status)
          (fun o t => rfl) s.outlets)
    · rfl
    · rfl
    · rfl
    · rw [get_device_info]; rw [List.map_map]; rfl
    · rw [get_device_info]; rw [List.map_map]; rfl
    · rw [get_device_info]; rw [List.map_map]; rfl

/-- C10 amended witness: an all-absent poll over the test-server snapshot
changes nothing, and the aggregation passes the numeric fields through. -/
theorem absent_field_semantics_witness :
    exceptOk (parse_update p_empty s_twelve) = true ∧
    (resState (parse_update p_empty s_twelve) s_twelve).power_value
      = s_twelve.power_value ∧
    (get_device_info s_twelve).power_status.power_watts
      = s_twelve.power_value :=
  ⟨by decide,
   (absent_field_semantics p_empty s_twelve (by decide)).2.2.2.2.2.2.1 rfl,
   (absent_field_semantics p_empty s_twelve
     (by decide)).2.2.2.2.2.2.2.2.2.2.2.2.2.2.2.2.2.1⟩

/-- For a valid master command, the source's numeric status comparison is
exactly "current status differs from the commanded target". -/
theorem statusNeCommand_eq_target (command : Commands)
    (hc : command = .ON ∨ command = .OFF) (st : Option Bool) :
    statusNeCommand st command = decide (st ≠ commandTarget command) := by
  rcases hc with h | h <;> subst h <;>
    rcases st with _ | b <;> first | rfl | (cases b <;> rfl)

/-- The master fan-out loop issues exactly the single command of each
outlet passing the method/status test, in dictionary order. -/
theorem fanout_eq_filter_map (outlets : List Outlet) (command : Commands) :
    (outlets.flatMap (fun o =>
      if truthy o.method && statusNeCommand o.status command then
        send_command (o.index : Int) command
      else [])) =
    (outlets.filter (fun o =>
        truthy o.method && statusNeCommand o.status command)).map
      (fun o => { outlet := (o.index : Int), command := command.val }) := by
  induction outlets with
  | nil => rfl
  | cons o rest ih =>
    by_cases h : truthy o.method = true ∧ statusNeCommand o.status command = true <;>
      simp only [List.flatMap_cons, List.filter_cons, Bool.and_eq_true,
        send_command, if_pos, if_neg, h, ite_true, ite_false] at ih ⊢ <;>
      simp [h, ih]

/-- Over a collection with pairwise distinct indices, counting the
members that share a given member's index and pass a predicate yields one
or zero according to that member. -/
theorem countP_unique_index (outlets : List Outlet) (o : Outlet)
    (hnodup : (outlets.map (fun u => u.index)).Nodup)
    (ho : o ∈ outlets) (pred : Outlet → Bool) :
    outlets.countP (fun u => pred u && (u.index == o.index)) =
      if pred o then 1 else 0 := by
  induction outlets with
  | nil => cases ho
  | cons u rest ih =>
    rw [List.map_cons, List.nodup_cons] at hnodup
    rcases List.mem_cons.mp ho with heq | hmem
    · subst heq
      rw [List.countP_cons]
      have hrest : rest.countP (fun v => pred v && (v.index == o.index)) = 0 := by
        rw [List.countP_eq_zero]
        intro v hv
        have hne : v.index ≠ o.index := by
          intro h
          exact hnodup.1 (h ▸ List.mem_map_of_mem (fun u => u.index) hv)
        simp [hne]
      rw [hrest]
      cases hp : pred o <;> simp [hp]
    · have hui : u.index ≠ o.index := by
        intro h
        exact hnodup.1 (h ▸ List.mem_map_of_mem (fun u => u.index) hmem)
      rw [List.countP_cons]
      have hz : (pred u && (u.index == o.index)) = false := by simp [hui]
      rw [hz]
      simp [ih hnodup.2 hmem]

/-- C5: for a valid master command (ON or OFF), `send_master_command`
issues exactly one per-outlet command to each outlet whose
master-controlled flag is set and whose current status differs from the
commanded target, and no command to any other outlet; the snapshot is
unchanged. -/
theorem master_command_fanout (command : Commands) (s : ClientState)
    (hc : command = .ON ∨ command = .OFF)
    (hnodup : (s.outlets.map (fun o => o.index)).Nodup) :
    ∃ reqs, (send_master_command command s).2 = .ok reqs ∧
      (send_master_command command s).1 = s ∧
      reqs = (s.outlets.filter (fun o =>
          truthy o.method && decide (o.status ≠ commandTarget command))).map
        (fun o => { outlet := (o.index : Int), command := command.val }) ∧
      (∀ o ∈ s.outlets,
        (reqs.filter (fun r => r.outlet == (o.index : Int))).length =
          if truthy o.method && decide (o.status ≠ commandTarget command)
          then 1 else 0) ∧
      (∀ r ∈ reqs, r.command = command.val ∧
        ∃ o ∈ s.outlets, truthy o.method = true ∧
          o.status ≠ commandTarget command ∧ r.outlet = (o.index : Int)) := by
  have hval : check_master_command command = .ok () := by
    rcases hc with h | h <;> subst h <;> rfl
  have hpred : ∀ st, statusNeCommand st command
      = decide (st ≠ commandTarget command) :=
    statusNeCommand_eq_target command hc
  have hfil : s.outlets.filter
        (fun o => truthy o.method && statusNeCommand o.status command)
      = s.outlets.filter
        (fun o => truthy o.method && decide (o.status ≠ commandTarget command)) := by
    apply List.filter_congr
    intro o _
    rw [hpred]
  refine ⟨(s.outlets.filter (fun o =>
      truthy o.method && decide (o.status ≠ commandTarget command))).map
        (fun o => { outlet := (o.index : Int), command := command.val }),
    ?_, ?_, rfl, ?_, ?_⟩
  · simp only [send_master_command, hval]
    rw [fanout_eq_filter_map, hfil]
  · simp [send_master_command, hval]
  · intro o ho
    rw [← List.countP_eq_length_filter, List.countP_map, List.countP_filter]
    simp only [Function.comp]
    have hpt : ∀ u ∈ s.outlets,
        ((((u.index : Int) == (o.index : Int)) &&
            (truthy u.method && decide (u.status ≠ commandTarget command)))
          = true) ↔
        (((truthy u.method && decide (u.status ≠ commandTarget command)) &&
            (u.index == o.index)) = true) := by
      intro u _
      by_cases h : u.index = o.index
      · simp [h]
      · have hInt : ¬ ((u.index : Int) = (o.index : Int)) := by exact_mod_cast h
        simp [h, hInt]
    rw [List.countP_congr hpt]
    exact countP_unique_index s.outlets o hnodup ho _
  · intro r hr
    simp only [List.mem_map, List.mem_filter, Bool.and_eq_true,
      decide_eq_true_eq] at hr
    obtain ⟨o, ⟨ho, hm, hst⟩, hreq⟩ := hr
    subst hreq
    exact ⟨rfl, o, ho, hm, hst, rfl⟩

/-- C5 witness: of the demo outlets, only outlet 1 (flagged, off) gets a
command when the master is turned on; the flagged-but-already-on outlet 2
and the unflagged outlet 3 get none. -/
theorem master_command_fanout_witness :
    (send_master_command .ON s_fanout_demo).2
      = .ok [{ outlet := 1, command := 1 }] ∧
    ((Commands.ON = Commands.ON ∨ Commands.ON = Commands.OFF) ∧
      (s_fanout_demo.outlets.map (fun o => o.index)).Nodup) ∧
    (∃ reqs, (send_master_command .ON s_fanout_demo).2 = .ok reqs ∧
      (send_master_command .ON s_fanout_demo).1 = s_fanout_demo ∧
      reqs = (s_fanout_demo.outlets.filter (fun o =>
          truthy o.method && decide (o.status ≠ commandTarget .ON))).map
        (fun o => { outlet := (o.index : Int), command := Commands.ON.val }) ∧
      (∀ o ∈ s_fanout_demo.outlets,
        (reqs.filter (fun r => r.outlet == (o.index : Int))).length =
          if truthy o.method && decide (o.status ≠ commandTarget .ON)
          then 1 else 0) ∧
      (∀ r ∈ reqs, r.command = Commands.ON.val ∧
        ∃ o ∈ s_fanout_demo.outlets, truthy o.method = true ∧
          o.status ≠ commandTarget .ON ∧ r.outlet = (o.index : Int))) :=
  ⟨rfl, ⟨Or.inl rfl, by decide⟩,
   master_command_fanout .ON s_fanout_demo (Or.inl rfl) (by decide)⟩

/-- C3: for every switch entity (outlet switch or master switch), a
turn-on or turn-off command issued strictly within 5 seconds of the
entity's recorded previous successful command is rejected with a
remaining-wait value in the interval (0, 5] and no device command is
issued; once 5 seconds have elapsed the command proceeds past the
cooldown gate. -/
theorem switch_cooldown (now : ℚ) (sw : SwitchState)
    (call : Except PyErr (List Request × Bool))
    (dataOutlets : Option (List OutletInfo)) (s : ClientState)
    (hle : sw.last_operation_time ≤ now) :
    (now - sw.last_operation_time < 5 →
      (outlet_switch_turn now sw call
          = .error { remaining := 5 - (now - sw.last_operation_time) } ∧
        master_turn_on now sw dataOutlets s
          = .error { remaining := 5 - (now - sw.last_operation_time) } ∧
        master_turn_off now sw s
          = .error { remaining := 5 - (now - sw.last_operation_time) } ∧
        0 < 5 - (now - sw.last_operation_time) ∧
        5 - (now - sw.last_operation_time) ≤ 5 ∧
        requestsOf (outlet_switch_turn now sw call) = [] ∧
        requestsOf (master_turn_on now sw dataOutlets s) = [] ∧
        requestsOf (master_turn_off now sw s) = [])) ∧
    (5 ≤ now - sw.last_operation_time →
      ((∃ out, outlet_switch_turn now sw call = .ok out) ∧
        (∃ out, master_turn_on now sw dataOutlets s = .ok out) ∧
        (∃ out, master_turn_off now sw s = .ok out))) := by
  constructor
  · intro hlt
    have hcd : is_in_cooldown now sw = true := by
      simp only [is_in_cooldown, cooldown_period, decide_eq_true_eq]
      exact hlt
    have hrem : get_cooldown_remaining now sw
        = 5 - (now - sw.last_operation_time) := by
      unfold get_cooldown_remaining cooldown_period
      rw [max_eq_right]
      linarith
    refine ⟨?_, ?_, ?_, by linarith, by linarith, ?_, ?_, ?_⟩ <;>
      simp [outlet_switch_turn, master_turn_on, master_turn_off, hcd, hrem,
        requestsOf]
  · intro hge
    have hcd : is_in_cooldown now sw = false := by
      simp only [is_in_cooldown, cooldown_period, decide_eq_false_iff_not]
      linarith
    refine ⟨?_, ?_, ?_⟩
    · cases call with
      | ok pr =>
        refine ⟨(pr.1, if pr.2 then { last_operation_time := now } else sw), ?_⟩
        simp [outlet_switch_turn, hcd]
      | error e =>
        refine ⟨([], sw), ?_⟩
        simp [outlet_switch_turn, hcd]
    · cases dataOutlets with
      | none =>
        refine ⟨([], sw), ?_⟩
        simp [master_turn_on, hcd]
      | some outs =>
        cases houts : outs.isEmpty with
        | true =>
          refine ⟨([], sw), ?_⟩
          simp [master_turn_on, hcd, houts]
        | false =>
          refine ⟨((master_fanout_on s outs).1,
            if (master_fanout_on s outs).2 then { last_operation_time := now }
            else sw), ?_⟩
          simp [master_turn_on, hcd, houts]
    · cases hcall : turn_off_outlet 0 s with
      | ok reqs =>
        refine ⟨(reqs, sw), ?_⟩
        simp [master_turn_off, hcd, hcall]
      | error e =>
        refine ⟨([], sw), ?_⟩
        simp [master_turn_off, hcd, hcall]

/-- C3 witness: with the previous successful command recorded at time 0, a
command at time 3 is rejected with remaining wait 5 - 3 = 2 ∈ (0, 5] and
no request, while a command at time 7 proceeds. -/
theorem switch_cooldown_witness :
    ((0 : ℚ) ≤ 3 ∧ (3 : ℚ) - 0 < 5) ∧
    outlet_switch_turn 3 { last_operation_time := 0 } (.ok ([], false))
      = .error { remaining := 5 - ((3 : ℚ) - 0) } ∧
    requestsOf (outlet_switch_turn 3 { last_operation_time := 0 }
      (.ok ([], false))) = [] ∧
    ((5 : ℚ) ≤ 7 - 0) ∧
    (∃ out, outlet_switch_turn 7 { last_operation_time := 0 }
      (.ok ([], false)) = .ok out) := by
  have h1 := switch_cooldown 3 { last_operation_time := 0 }
    (.ok ([], false)) none initClient (by norm_num)
  have h2 := switch_cooldown 7 { last_operation_time := 0 }
    (.ok ([], false)) none initClient (by norm_num)
  have hlt : (3 : ℚ) - 0 < 5 := by norm_num
  have hge : (5 : ℚ) ≤ 7 - 0 := by norm_num
  exact ⟨⟨by norm_num, hlt⟩, (h1.1 hlt).1, (h1.1 hlt).2.2.2.2.2.1, hge,
    (h2.2 hge).1⟩
